import Mathlib

/-!
Shallow embedding of the CwaWeather backend (src/server.js): location
normalization and validation, the forecast transformer, the TTL cache, and
the request handler getWeatherByLocation, with theorems checking the
specification claims against these definitions.

JavaScript conventions modelled explicitly: absent values are Option.none,
the falsiness of the empty string is an explicit test, and Map mutation is
explicit state passing.
-/

/-- Whitespace characters removed by the JavaScript String.prototype.trim. -/
def isJsWhitespace (c : Char) : Bool :=
  c ∈ (['\u0009', '\u000A', '\u000B', '\u000C', '\u000D', '\u0020',
        '\u00A0', '\u1680', '\u2000', '\u2001', '\u2002', '\u2003',
        '\u2004', '\u2005', '\u2006', '\u2007', '\u2008', '\u2009',
        '\u200A', '\u2028', '\u2029', '\u202F', '\u205F', '\u3000',
        '\uFEFF'] : List Char)

/-- Embedding of JavaScript String.prototype.trim: strip whitespace from both ends. -/
def jsTrim (s : String) : String :=
  String.mk (((s.data.dropWhile isJsWhitespace).reverse.dropWhile isJsWhitespace).reverse)

/-- raw.startsWith of the single character 台 (server.js line 65). -/
def startsWithTai (s : String) : Bool :=
  match s.data with
  | c :: _ => c == '台'
  | [] => false

/-- The substitution 臺 + raw.slice(1) applied when raw starts with 台 (server.js line 65). -/
def taiToFormal (s : String) : String :=
  match s.data with
  | c :: rest => if c = '台' then String.mk ('臺' :: rest) else s
  | [] => s

/-- VALID_LOCATIONS from server.js line 15: the 22 canonical county and city names. -/
def VALID_LOCATIONS : List String :=
  ["臺北市", "新北市", "桃園市", "臺中市", "臺南市", "高雄市", "基隆市", "新竹市",
   "新竹縣", "苗栗縣", "彰化縣", "南投縣", "雲林縣", "嘉義市", "嘉義縣", "屏東縣",
   "宜蘭縣", "花蓮縣", "臺東縣", "澎湖縣", "金門縣", "連江縣"]

/-- LOCATION_ALIASES from server.js lines 18 to 48, as an association list. -/
def LOCATION_ALIASES : List (String × String) :=
  [("台北市", "臺北市"), ("台中市", "臺中市"), ("台南市", "臺南市"), ("台東縣", "臺東縣"),
   ("taipei", "臺北市"), ("newtaipei", "新北市"), ("taoyuan", "桃園市"),
   ("taichung", "臺中市"), ("tainan", "臺南市"), ("kaohsiung", "高雄市"),
   ("keelung", "基隆市"), ("hsinchu_city", "新竹市"), ("hsinchu_county", "新竹縣"),
   ("miaoli", "苗栗縣"), ("changhua", "彰化縣"), ("nantou", "南投縣"),
   ("yunlin", "雲林縣"), ("chiayi_city", "嘉義市"), ("chiayi_county", "嘉義縣"),
   ("pingtung", "屏東縣"), ("yilan", "宜蘭縣"), ("hualien", "花蓮縣"),
   ("taitung", "臺東縣"), ("penghu", "澎湖縣"), ("kinmen", "金門縣"),
   ("lienchiang", "連江縣")]

/-- The object lookup LOCATION_ALIASES[k] (every alias value is a nonempty
string, so object-truthiness coincides with presence). -/
def lookupAlias (k : String) : Option String :=
  (LOCATION_ALIASES.find? (fun p => p.1 == k)).map (fun p => p.2)

/-- normalizeLocation from server.js lines 57 to 71: empty in, empty out;
trim; alias lookup; leading 台 to 臺 substitution; second alias lookup;
otherwise return the substituted string. -/
def normalizeLocation (input : String) : String :=
  if input = "" then ""
  else
    let raw := jsTrim input
    (lookupAlias raw).getD ((lookupAlias (taiToFormal raw)).getD (taiToFormal raw))

/-- isValidLocation from server.js lines 73 to 75: membership in VALID_LOCATIONS. -/
def isValidLocation (name : String) : Bool :=
  VALID_LOCATIONS.contains name

/-- The JavaScript idiom x || d for an optional string x: the empty string is
falsy, so both absence and emptiness fall back to d. -/
def jsOrS (o : Option String) (d : String) : String :=
  match o with
  | none => d
  | some s => if s = "" then d else s

/-- Truthiness of an optional string (used for the CWA_API_KEY check). -/
def jsTruthy (o : Option String) : Bool :=
  match o with
  | none => false
  | some s => s != ""

/-- One parameter object inside a time entry of an upstream weather element. -/
structure Parameter where
  parameterName : Option String
deriving DecidableEq, Repr

/-- One time entry of an upstream weather element. -/
structure TimeEntry where
  startTime : Option String
  endTime : Option String
  parameter : Option Parameter
deriving DecidableEq, Repr

/-- One weather element block of the upstream payload. -/
structure WeatherElement where
  elementName : String
  time : Option (List TimeEntry)
deriving DecidableEq, Repr

/-- One location entry of the upstream payload. -/
structure LocationData where
  locationName : String
  weatherElement : Option (List WeatherElement)
deriving DecidableEq, Repr

/-- The records object of the upstream payload. -/
structure Records where
  datasetDescription : Option String
  location : Option (List LocationData)
deriving DecidableEq, Repr

/-- One reshaped forecast period (server.js lines 185 to 194). -/
structure ForecastPeriod where
  startTime : String
  endTime : String
  weather : String
  rain : String
  minTemp : String
  maxTemp : String
  comfort : String
  windSpeed : String
deriving DecidableEq, Repr

/-- The reshaped weather payload (server.js lines 171 to 175). -/
structure WeatherData where
  city : String
  updateTime : String
  forecasts : List ForecastPeriod
deriving DecidableEq, Repr

/-- pickFirstLocation from server.js lines 77 to 79: records?.location?.[0] || null. -/
def pickFirstLocation (records : Option Records) : Option LocationData :=
  (records.bind (fun r => r.location)).bind (fun l => l.get? 0)

/-- The optional chain element?.time?.[i]?.parameter followed by p?.parameterName
(server.js lines 197 to 198). -/
def elemVal (e : WeatherElement) (i : Nat) : Option String :=
  (((e.time.bind (fun l => l.get? i)).bind
      (fun te => te.parameter)).bind
      (fun p => p.parameterName))

/-- The unit tagging val !== undefined && val !== "" ? val + suffix : ""
(server.js lines 206, 209, 212). -/
def tagValue (val : Option String) (suffix : String) : String :=
  match val with
  | none => ""
  | some v => if v = "" then "" else v ++ suffix

/-- The switch over element.elementName mutating one forecast record
(server.js lines 200 to 219). -/
def applyElement (i : Nat) (f : ForecastPeriod) (e : WeatherElement) : ForecastPeriod :=
  let val := elemVal e i
  if e.elementName = "Wx" then { f with weather := jsOrS val "" }
  else if e.elementName = "PoP" ∨ e.elementName = "PoP6h" then
    { f with rain := tagValue val "%" }
  else if e.elementName = "MinT" then { f with minTemp := tagValue val "°C" }
  else if e.elementName = "MaxT" then { f with maxTemp := tagValue val "°C" }
  else if e.elementName = "CI" then { f with comfort := jsOrS val "" }
  else f

/-- The per-period initial record (server.js lines 185 to 194): start and end
from the authoritative timeline, all content fields empty. -/
def initForecast (bts : List TimeEntry) (i : Nat) : ForecastPeriod :=
  { startTime := jsOrS ((bts.get? i).bind (fun te => te.startTime)) ""
    endTime := jsOrS ((bts.get? i).bind (fun te => te.endTime)) ""
    weather := "", rain := "", minTemp := "", maxTemp := "", comfort := ""
    windSpeed := "" }

/-- One iteration of the outer period loop: fold the element switch over all
weather element blocks (server.js lines 196 to 220). -/
def buildForecast (wes : List WeatherElement) (bts : List TimeEntry) (i : Nat) :
    ForecastPeriod :=
  wes.foldl (applyElement i) (initForecast bts i)

/-- weatherElements.find(e => e.elementName === "Wx") || weatherElements[0]
(server.js line 180). -/
def wxElement (wes : List WeatherElement) : Option WeatherElement :=
  match wes.find? (fun e => e.elementName == "Wx") with
  | some e => some e
  | none => wes.get? 0

/-- baseTimes: wxEl?.time || [] (server.js line 181). -/
def baseTimes (wes : List WeatherElement) : List TimeEntry :=
  ((wxElement wes).bind (fun e => e.time)).getD []

/-- The outer period loop (server.js lines 184 to 223), one forecast per index
of the authoritative timeline. -/
def transformForecasts (wes : List WeatherElement) : List ForecastPeriod :=
  (List.range (baseTimes wes).length).map (buildForecast wes (baseTimes wes))

/-- Construction of weatherData (server.js lines 171 to 223) from the records
object and the first location entry. -/
def transform (records : Option Records) (locationData : LocationData) : WeatherData :=
  { city := locationData.locationName
    updateTime := jsOrS (records.bind (fun r => r.datasetDescription)) "三十六小時天氣預報"
    forecasts := transformForecasts (locationData.weatherElement.getD []) }

/-- CACHE_TTL_MS from server.js line 90: three minutes in milliseconds. -/
def CACHE_TTL_MS : Nat := 3 * 60 * 1000

/-- One cache entry: expiry timestamp and stored payload (server.js line 103). -/
structure CacheEntry where
  expires : Nat
  data : WeatherData
deriving DecidableEq, Repr

/-- The cache Map, modelled as an association list (newest binding first). -/
abbrev Cache := List (String × CacheEntry)

/-- Map.get. -/
def cacheLookup (c : Cache) (k : String) : Option CacheEntry :=
  (c.find? (fun p => p.1 == k)).map (fun p => p.2)

/-- Map.delete. -/
def cacheDelete (c : Cache) (k : String) : Cache :=
  c.filter (fun p => p.1 != k)

/-- getCache from server.js lines 93 to 101: lazy expiry, returning the data
(if fresh) and the possibly updated cache state; now is Date.now(). -/
def getCache (c : Cache) (now : Nat) (key : String) : Option WeatherData × Cache :=
  match cacheLookup c key with
  | none => (none, c)
  | some hit => if now > hit.expires then (none, cacheDelete c key) else (some hit.data, c)

/-- setCache from server.js lines 102 to 104: store with expiry now plus TTL. -/
def setCache (c : Cache) (now : Nat) (key : String) (d : WeatherData) : Cache :=
  (key, { expires := now + CACHE_TTL_MS, data := d }) :: cacheDelete c key

/-- The body of an upstream error response, as far as the handler reads it
(error.response.data?.message and the details passthrough). -/
structure UpstreamBody where
  message : Option String
deriving DecidableEq, Repr

/-- Outcome of the single axios.get call: a 2xx response carrying
response.data?.records, a non-2xx response (error.response present with its
status and body), or a network failure or timeout (no error.response). -/
inductive UpstreamResult where
  | ok (records : Option Records)
  | httpError (status : Nat) (body : Option UpstreamBody)
  | networkError
deriving DecidableEq, Repr

/-- A JSON HTTP response as the handler assembles it: status plus the body
fields that appear in some branch (none encodes an absent key). -/
structure HttpResponse where
  status : Nat
  success : Bool
  error : Option String := none
  message : Option String := none
  allowed : Option (List String) := none
  tip : Option String := none
  data : Option WeatherData := none
  cached : Option Bool := none
  details : Option UpstreamBody := none
deriving DecidableEq, Repr

/-- The input chain req.query.city || req.query.locationName || req.params.city
|| req.params.location || default (server.js line 119): first truthy string. -/
def firstTruthy : List (Option String) → String → String
  | [], d => d
  | none :: rest, d => firstTruthy rest d
  | some s :: rest, d => if s = "" then firstTruthy rest d else s

/-- The resolved raw input of a weather request (server.js line 119). -/
def weatherInput (qcity qloc pcity ploc : Option String) : String :=
  firstTruthy [qcity, qloc, pcity, ploc] "高雄市"

/-- getWeatherByLocation from server.js lines 108 to 249 as a pure function of
the API key, the four input sources, the cache state, the current time and the
outcome of the upstream call; returns the response and the new cache state. -/
def getWeatherByLocation (apiKey : Option String)
    (qcity qloc pcity ploc : Option String) (cache : Cache) (now : Nat)
    (upstream : UpstreamResult) : HttpResponse × Cache :=
  if jsTruthy apiKey = false then
    ({ status := 500, success := false, error := some "伺服器設定錯誤",
       message := some "請在 .env 檔案中設定 CWA_API_KEY" }, cache)
  else
    let input := weatherInput qcity qloc pcity ploc
    let locationName := normalizeLocation input
    if locationName = "" then
      ({ status := 400, success := false, error := some "參數錯誤",
         message := some "請提供 city 或 locationName，例如 /api/weather?city=宜蘭縣" },
       cache)
    else if isValidLocation locationName = false then
      ({ status := 400, success := false, error := some "地區不支援",
         message := some ("不支援的地區：" ++ locationName),
         allowed := some VALID_LOCATIONS,
         tip := some "請使用 /api/locations 取得可用地區清單" }, cache)
    else
      let cres := getCache cache now locationName
      match cres.1 with
      | some d =>
        ({ status := 200, success := true, data := some d, cached := some true },
         cres.2)
      | none =>
        match upstream with
        | .ok records =>
          match pickFirstLocation records with
          | none =>
            ({ status := 404, success := false, error := some "查無資料",
               message := some ("無法取得 " ++ locationName ++ " 天氣資料") }, cres.2)
          | some locationData =>
            let weatherData := transform records locationData
            ({ status := 200, success := true, data := some weatherData },
             setCache cres.2 now locationName weatherData)
        | .httpError s body =>
          ({ status := s, success := false, error := some "CWA API 錯誤",
             message := some (jsOrS (body.bind (fun b => b.message)) "無法取得天氣資料"),
             details := body }, cres.2)
        | .networkError =>
          ({ status := 500, success := false, error := some "伺服器錯誤",
             message := some "無法取得天氣資料，請稍後再試" }, cres.2)

lemma taiToFormal_of_not_tai (s : String) (h : startsWithTai s = false) :
    taiToFormal s = s := by
  unfold startsWithTai at h
  unfold taiToFormal
  cases hd : s.data with
  | nil => rfl
  | cons c rest =>
    rw [hd] at h
    simp only [beq_eq_false_iff_ne, ne_eq] at h
    simp [h]

lemma cacheLookup_delete (c : Cache) (k : String) :
    cacheLookup (cacheDelete c k) k = none := by
  induction c with
  | nil => rfl
  | cons p rest ih =>
    by_cases h : p.1 = k
    · simpa [cacheDelete, List.filter_cons, h] using ih
    · simp [cacheDelete, cacheLookup, List.filter_cons, List.find?_cons, h]

/-- C3: every alias key normalizes to its mapped canonical value, every
canonical name normalizes to itself, and both 台北市 and 臺北市 normalize
to 臺北市. -/
theorem alias_normalization :
    (∀ p ∈ LOCATION_ALIASES, normalizeLocation p.1 = p.2) ∧
    (∀ c ∈ VALID_LOCATIONS, normalizeLocation c = c) ∧
    normalizeLocation "台北市" = "臺北市" ∧ normalizeLocation "臺北市" = "臺北市" := by
  decide

theorem alias_normalization_witness :
    ("台北市", "臺北市") ∈ LOCATION_ALIASES ∧
      normalizeLocation ("台北市", "臺北市").1 = ("台北市", "臺北市").2 :=
  ⟨by decide, alias_normalization.1 ("台北市", "臺北市") (by decide)⟩

/-- C1 counterexample: the input string consisting of 高雄市 with one leading
space is not an alias key, does not start with 台, and is not canonical, yet
after normalization (which trims whitespace) it validates as true. -/
theorem normalize_unknown_counterexample :
    lookupAlias " 高雄市" = none ∧ startsWithTai " 高雄市" = false ∧
    isValidLocation " 高雄市" = false ∧
    isValidLocation (normalizeLocation " 高雄市") = true := by
  decide

/-- C1 amended: for every input whose TRIMMED form is not an alias key, does
not start with 台, and is not canonical, validation of the normalized input
returns false. -/
theorem normalize_unknown_invalid (s : String)
    (h1 : lookupAlias (jsTrim s) = none)
    (h2 : startsWithTai (jsTrim s) = false)
    (h3 : isValidLocation (jsTrim s) = false) :
    isValidLocation (normalizeLocation s) = false := by
  have ht : taiToFormal (jsTrim s) = jsTrim s := taiToFormal_of_not_tai _ h2
  by_cases hs : s = ""
  · subst hs; decide
  · unfold normalizeLocation
    simp only [if_neg hs, ht, h1, Option.getD_none]
    exact h3

theorem normalize_unknown_invalid_witness :
    lookupAlias (jsTrim "火星") = none ∧ startsWithTai (jsTrim "火星") = false ∧
    isValidLocation (jsTrim "火星") = false ∧
    isValidLocation (normalizeLocation "火星") = false :=
  ⟨by decide, by decide, by decide,
   normalize_unknown_invalid "火星" (by decide) (by decide) (by decide)⟩

/-- C8: when no city or locationName query parameter and no path parameter is
supplied, the handler input is 高雄市, and the handler behaves exactly as if
高雄市 had been supplied. -/
theorem default_location_kaohsiung :
    weatherInput none none none none = "高雄市" ∧
    ∀ (apiKey : Option String) (cache : Cache) (now : Nat)
      (upstream : UpstreamResult),
      getWeatherByLocation apiKey none none none none cache now upstream =
        getWeatherByLocation apiKey (some "高雄市") none none none cache now upstream := by
  exact ⟨rfl, fun apiKey cache now upstream => rfl⟩

/-- C6: a set followed by a get within the TTL returns the stored value; after
the TTL has elapsed the get returns absent and the entry is removed from the
cache state; and in general a get never returns data past its entry expiry. -/
theorem cache_ttl_roundtrip :
    ∀ (c : Cache) (k : String) (v : WeatherData) (t now : Nat),
      (now ≤ t + CACHE_TTL_MS →
        (getCache (setCache c t k v) now k).1 = some v) ∧
      (t + CACHE_TTL_MS < now →
        (getCache (setCache c t k v) now k).1 = none ∧
        cacheLookup (getCache (setCache c t k v) now k).2 k = none) ∧
      (∀ d, (getCache c now k).1 = some d →
        ∃ e, cacheLookup c k = some e ∧ e.data = d ∧ now ≤ e.expires) := by
  intro c k v t now
  have hl : cacheLookup (setCache c t k v) k =
      some { expires := t + CACHE_TTL_MS, data := v } := by
    simp [cacheLookup, setCache, List.find?_cons]
  refine ⟨?_, ?_, ?_⟩
  · intro hle
    have hnot : ¬ (now > t + CACHE_TTL_MS) := by omega
    simp [getCache, hl, hnot]
  · intro hgt
    have hgt2 : now > t + CACHE_TTL_MS := hgt
    constructor
    · simp [getCache, hl, hgt2]
    · simp only [getCache, hl, if_pos hgt2]
      exact cacheLookup_delete _ k
  · intro d hd
    cases he : cacheLookup c k with
    | none => simp [getCache, he] at hd
    | some e =>
      by_cases hexp : now > e.expires
      · simp [getCache, he, hexp] at hd
      · simp [getCache, he, hexp] at hd
        exact ⟨e, rfl, hd, by omega⟩

theorem cache_ttl_roundtrip_witness :
    (0 ≤ 0 + CACHE_TTL_MS) ∧
      (getCache (setCache [] 0 "高雄市"
          { city := "高雄市", updateTime := "u", forecasts := [] }) 0 "高雄市").1 =
        some { city := "高雄市", updateTime := "u", forecasts := [] } :=
  ⟨by decide,
   (cache_ttl_roundtrip [] "高雄市"
      { city := "高雄市", updateTime := "u", forecasts := [] } 0 0).1 (by decide)⟩

/-- C10: the updateTime of a transformed payload equals the upstream
datasetDescription when that is present and nonempty, and equals the fixed
fallback 三十六小時天氣預報 when it is absent or empty. -/
theorem updateTime_from_dataset :
    ∀ (records : Option Records) (ld : LocationData),
      (∀ s : String, records.bind (fun r => r.datasetDescription) = some s →
        s ≠ "" → (transform records ld).updateTime = s) ∧
      ((records.bind (fun r => r.datasetDescription) = none ∨
        records.bind (fun r => r.datasetDescription) = some "") →
        (transform records ld).updateTime = "三十六小時天氣預報") := by
  intro records ld
  constructor
  · intro s hs hne
    simp [transform, jsOrS, hs, hne]
  · intro h
    rcases h with h | h <;> simp [transform, jsOrS, h]

theorem updateTime_from_dataset_witness :
    (some { datasetDescription := some "desc", location := none } : Option Records).bind
        (fun r => r.datasetDescription) = some "desc" ∧
      (transform (some { datasetDescription := some "desc", location := none })
          { locationName := "高雄市", weatherElement := none }).updateTime = "desc" :=
  ⟨rfl, (updateTime_from_dataset _ _).1 "desc" rfl (by decide)⟩

/-- All five content fields of a forecast period are at the empty default. -/
def contentEmpty (f : ForecastPeriod) : Prop :=
  f.weather = "" ∧ f.rain = "" ∧ f.minTemp = "" ∧ f.maxTemp = "" ∧ f.comfort = ""

lemma applyElement_keeps_empty (i : Nat) (f : ForecastPeriod) (e : WeatherElement)
    (hv : elemVal e i = none ∨ elemVal e i = some "")
    (hf : contentEmpty f) : contentEmpty (applyElement i f e) := by
  obtain ⟨h1, h2, h3, h4, h5⟩ := hf
  rcases hv with hv | hv <;>
    · unfold applyElement contentEmpty
      rw [hv]
      split_ifs <;> simp [jsOrS, tagValue, h1, h2, h3, h4, h5]

lemma foldl_keeps_empty (i : Nat) (wes : List WeatherElement) (f : ForecastPeriod)
    (hall : ∀ e ∈ wes, elemVal e i = none ∨ elemVal e i = some "")
    (hf : contentEmpty f) :
    contentEmpty (wes.foldl (applyElement i) f) := by
  induction wes generalizing f with
  | nil => exact hf
  | cons e rest ih =>
    exact ih (applyElement i f e)
      (fun x hx => hall x (List.mem_cons_of_mem _ hx))
      (applyElement_keeps_empty i f e (hall e (List.mem_cons_self _ _)) hf)

lemma initForecast_contentEmpty (bts : List TimeEntry) (i : Nat) :
    contentEmpty (initForecast bts i) :=
  ⟨rfl, rfl, rfl, rfl, rfl⟩

/-- C4: PoP and PoP6h values are suffixed with a percent sign, MinT and MaxT
values with the degree unit, Wx and CI values are copied verbatim, a missing
or empty parameter leaves every content field at the empty default (never a
bare unit suffix), and unknown element names leave the record unchanged. -/
theorem unit_tagging :
    (∀ (f : ForecastPeriod) (e : WeatherElement) (i : Nat),
      (e.elementName = "PoP" ∨ e.elementName = "PoP6h") →
      elemVal e i = some "60" → (applyElement i f e).rain = "60%") ∧
    (∀ (f : ForecastPeriod) (e : WeatherElement) (i : Nat) (v : String),
      e.elementName = "MinT" → elemVal e i = some v → v ≠ "" →
      (applyElement i f e).minTemp = v ++ "°C") ∧
    (∀ (f : ForecastPeriod) (e : WeatherElement) (i : Nat) (v : String),
      e.elementName = "MaxT" → elemVal e i = some v → v ≠ "" →
      (applyElement i f e).maxTemp = v ++ "°C") ∧
    (∀ (f : ForecastPeriod) (e : WeatherElement) (i : Nat) (v : String),
      e.elementName = "Wx" → elemVal e i = some v →
      (applyElement i f e).weather = v) ∧
    (∀ (f : ForecastPeriod) (e : WeatherElement) (i : Nat) (v : String),
      e.elementName = "CI" → elemVal e i = some v →
      (applyElement i f e).comfort = v) ∧
    (∀ (wes : List WeatherElement) (bts : List TimeEntry) (i : Nat),
      (∀ e ∈ wes, elemVal e i = none ∨ elemVal e i = some "") →
      contentEmpty (buildForecast wes bts i)) ∧
    (∀ (f : ForecastPeriod) (e : WeatherElement) (i : Nat),
      e.elementName ∉ (["Wx", "PoP", "PoP6h", "MinT", "MaxT", "CI"] : List String) →
      applyElement i f e = f) := by
  refine ⟨?_, ?_, ?_, ?_, ?_, ?_, ?_⟩
  · intro f e i hn hv
    rcases hn with hn | hn <;> simp [applyElement, hn, hv, tagValue]
  · intro f e i v hn hv hne
    simp [applyElement, hn, hv, tagValue, hne]
  · intro f e i v hn hv hne
    simp [applyElement, hn, hv, tagValue, hne]
  · intro f e i v hn hv
    by_cases hve : v = ""
    · simp [applyElement, hn, hv, jsOrS, hve]
    · simp [applyElement, hn, hv, jsOrS, hve]
  · intro f e i v hn hv
    by_cases hve : v = ""
    · simp [applyElement, hn, hv, jsOrS, hve]
    · simp [applyElement, hn, hv, jsOrS, hve]
  · intro wes bts i hall
    exact foldl_keeps_empty i wes _ hall (initForecast_contentEmpty bts i)
  · intro f e i hn
    simp only [List.mem_cons, List.mem_singleton, not_or] at hn
    obtain ⟨n1, n2, n3, n4, n5, n6⟩ := hn
    simp [applyElement, n1, n2, n3, n4, n5, n6]

theorem unit_tagging_witness :
    (("PoP" : String) = "PoP" ∨ ("PoP" : String) = "PoP6h") ∧
    elemVal { elementName := "PoP",
              time := some [{ startTime := none, endTime := none,
                              parameter := some { parameterName := some "60" } }] } 0 =
      some "60" ∧
    (applyElement 0 (initForecast [] 0)
        { elementName := "PoP",
          time := some [{ startTime := none, endTime := none,
                          parameter := some { parameterName := some "60" } }] }).rain =
      "60%" :=
  ⟨Or.inl rfl, rfl,
   unit_tagging.1 (initForecast [] 0)
     { elementName := "PoP",
       time := some [{ startTime := none, endTime := none,
                       parameter := some { parameterName := some "60" } }] } 0
     (Or.inl rfl) rfl⟩

/-- C5: the authoritative timeline is the time list of the element named Wx
when one exists, otherwise that of the first element block; a zero-period
timeline yields an empty forecast sequence; an element lacking an entry at
index i contributes an absent parameter there, leaving every content field at
the empty default. -/
theorem authoritative_timeline :
    (∀ (wes : List WeatherElement) (e : WeatherElement),
      wes.find? (fun x => x.elementName == "Wx") = some e →
      baseTimes wes = e.time.getD []) ∧
    (∀ wes : List WeatherElement,
      wes.find? (fun x => x.elementName == "Wx") = none →
      baseTimes wes = ((wes.get? 0).bind (fun x => x.time)).getD []) ∧
    (∀ (records : Option Records) (ld : LocationData),
      baseTimes (ld.weatherElement.getD []) = [] →
      (transform records ld).forecasts = []) ∧
    (∀ (e : WeatherElement) (i : Nat),
      (e.time.getD []).length ≤ i → elemVal e i = none) ∧
    (∀ (wes : List WeatherElement) (bts : List TimeEntry) (i : Nat),
      (∀ e ∈ wes, elemVal e i = none) →
      contentEmpty (buildForecast wes bts i)) := by
  refine ⟨?_, ?_, ?_, ?_, ?_⟩
  · intro wes e h
    simp [baseTimes, wxElement, h]
  · intro wes h
    simp [baseTimes, wxElement, h]
  · intro records ld h
    simp [transform, transformForecasts, h]
  · intro e i h
    cases ht : e.time with
    | none => simp [elemVal, ht]
    | some l =>
      rw [ht] at h
      simp only [Option.getD_some] at h
      have hnone : l[i]? = none := List.getElem?_eq_none h
      simp [elemVal, ht, hnone]
  · intro wes bts i hall
    exact foldl_keeps_empty i wes _ (fun e he => Or.inl (hall e he))
      (initForecast_contentEmpty bts i)

theorem authoritative_timeline_witness :
    ([{ elementName := "Wx", time := some [] },
      { elementName := "PoP", time := none }] : List WeatherElement).find?
        (fun x => x.elementName == "Wx") =
      some { elementName := "Wx", time := some [] } ∧
    baseTimes [{ elementName := "Wx", time := some [] },
               { elementName := "PoP", time := none }] =
      ({ elementName := "Wx", time := some [] } : WeatherElement).time.getD [] :=
  ⟨by decide,
   authoritative_timeline.1
     [{ elementName := "Wx", time := some [] }, { elementName := "PoP", time := none }]
     { elementName := "Wx", time := some [] } (by decide)⟩

lemma applyElement_windSpeed (i : Nat) (f : ForecastPeriod) (e : WeatherElement) :
    (applyElement i f e).windSpeed = f.windSpeed := by
  unfold applyElement
  split_ifs <;> rfl

lemma foldl_windSpeed (i : Nat) (wes : List WeatherElement) (f : ForecastPeriod) :
    (wes.foldl (applyElement i) f).windSpeed = f.windSpeed := by
  induction wes generalizing f with
  | nil => rfl
  | cons e rest ih => rw [List.foldl_cons, ih, applyElement_windSpeed]

/-- C9: every forecast period emitted by the transformer carries a windSpeed
field whose value is the empty string: it is initialized empty and no element
kind ever writes it. -/
theorem windSpeed_always_empty :
    ∀ (records : Option Records) (ld : LocationData),
      ∀ p ∈ (transform records ld).forecasts, p.windSpeed = "" := by
  intro records ld p hp
  simp only [transform, transformForecasts, List.mem_map] at hp
  obtain ⟨i, _, hbuild⟩ := hp
  rw [← hbuild]
  rw [buildForecast, foldl_windSpeed]
  rfl

theorem windSpeed_always_empty_witness :
    ({ startTime := "06:00", endTime := "18:00", weather := "晴", rain := "",
       minTemp := "", maxTemp := "", comfort := "", windSpeed := "" } : ForecastPeriod) ∈
      (transform none
        { locationName := "高雄市",
          weatherElement := some
            [{ elementName := "Wx",
               time := some [{ startTime := some "06:00", endTime := some "18:00",
                               parameter := some { parameterName := some "晴" } }] }] }).forecasts ∧
    ({ startTime := "06:00", endTime := "18:00", weather := "晴", rain := "",
       minTemp := "", maxTemp := "", comfort := "", windSpeed := "" } : ForecastPeriod).windSpeed =
      "" :=
  ⟨by decide,
   windSpeed_always_empty none
     { locationName := "高雄市",
       weatherElement := some
         [{ elementName := "Wx",
            time := some [{ startTime := some "06:00", endTime := some "18:00",
                            parameter := some { parameterName := some "晴" } }] }] }
     { startTime := "06:00", endTime := "18:00", weather := "晴", rain := "",
       minTemp := "", maxTemp := "", comfort := "", windSpeed := "" }
     (by decide)⟩

/-- C2 counterexample: a request whose location input is one space character
fails validation (the location normalizes to the empty string), and the
handler answers 400, but the body carries no allowed-location list. -/
theorem validation_allowed_list_counterexample :
    normalizeLocation (weatherInput (some " ") none none none) = "" ∧
    (getWeatherByLocation (some "key") (some " ") none none none [] 0
        .networkError).1.status = 400 ∧
    (getWeatherByLocation (some "key") (some " ") none none none [] 0
        .networkError).1.allowed = none := by
  decide

/-- C2 amended: every input-validation failure yields status 400; when the
location normalizes to the empty string the body carries no allowed list,
and when the resolved name is nonempty but outside the canonical set the
body includes the full allowed-location list. -/
theorem validation_error_responses (apiKey qc ql pc pl : Option String)
    (cache : Cache) (now : Nat) (upstream : UpstreamResult)
    (hk : jsTruthy apiKey = true) :
    (normalizeLocation (weatherInput qc ql pc pl) = "" →
      (getWeatherByLocation apiKey qc ql pc pl cache now upstream).1.status = 400 ∧
      (getWeatherByLocation apiKey qc ql pc pl cache now upstream).1.allowed = none) ∧
    (normalizeLocation (weatherInput qc ql pc pl) ≠ "" →
      isValidLocation (normalizeLocation (weatherInput qc ql pc pl)) = false →
      (getWeatherByLocation apiKey qc ql pc pl cache now upstream).1.status = 400 ∧
      (getWeatherByLocation apiKey qc ql pc pl cache now upstream).1.allowed =
        some VALID_LOCATIONS) := by
  constructor
  · intro h0
    simp [getWeatherByLocation, hk, h0]
  · intro h0 hv
    simp [getWeatherByLocation, hk, h0, hv]

theorem validation_error_responses_witness :
    jsTruthy (some "key") = true ∧
    normalizeLocation (weatherInput (some "火星") none none none) ≠ "" ∧
    isValidLocation (normalizeLocation (weatherInput (some "火星") none none none)) =
      false ∧
    (getWeatherByLocation (some "key") (some "火星") none none none [] 0
        .networkError).1.allowed = some VALID_LOCATIONS :=
  ⟨by decide, by decide, by decide,
   ((validation_error_responses (some "key") (some "火星") none none none [] 0
       .networkError (by decide)).2 (by decide) (by decide)).2⟩

/-- C7: once a weather request passes validation and misses the cache, an
upstream non-2xx failure is answered with the upstream status code and the
upstream message and details in the body, and a network failure or timeout
(no upstream response) is answered with status 500; the handler is a total
function producing exactly one structured response from the single upstream
outcome, so no failure class crashes it or triggers a second attempt. -/
theorem upstream_error_propagation (apiKey qc ql pc pl : Option String)
    (cache : Cache) (now : Nat)
    (hk : jsTruthy apiKey = true)
    (hne : normalizeLocation (weatherInput qc ql pc pl) ≠ "")
    (hv : isValidLocation (normalizeLocation (weatherInput qc ql pc pl)) = true)
    (hm : (getCache cache now (normalizeLocation (weatherInput qc ql pc pl))).1 = none) :
    (∀ (s : Nat) (body : Option UpstreamBody),
      (getWeatherByLocation apiKey qc ql pc pl cache now (.httpError s body)).1 =
        { status := s, success := false, error := some "CWA API 錯誤",
          message := some (jsOrS (body.bind (fun b => b.message)) "無法取得天氣資料"),
          details := body }) ∧
    (getWeatherByLocation apiKey qc ql pc pl cache now .networkError).1 =
      { status := 500, success := false, error := some "伺服器錯誤",
        message := some "無法取得天氣資料，請稍後再試" } := by
  constructor
  · intro s body
    simp [getWeatherByLocation, hk, hne, hv, hm]
  · simp [getWeatherByLocation, hk, hne, hv, hm]

theorem upstream_error_propagation_witness :
    (getCache [] 0 (normalizeLocation (weatherInput (some "高雄市") none none none))).1 =
      none ∧
    (getWeatherByLocation (some "key") (some "高雄市") none none none [] 0
        (.httpError 503 (some { message := some "rate limited" }))).1 =
      { status := 503, success := false, error := some "CWA API 錯誤",
        message := some "rate limited",
        details := some { message := some "rate limited" } } :=
  ⟨rfl,
   by
     have h := (upstream_error_propagation (some "key") (some "高雄市") none none none
       [] 0 (by decide) (by decide) (by decide) rfl).1 503
       (some { message := some "rate limited" })
     simpa [jsOrS] using h⟩
